import Mathlib

/-!
Verification of the search orchestration and result-normalization engine of
the youtube-search-streamlit repository.

The Python sources are shallowly embedded as executable Lean definitions:

* `src/core/data_processor.py` — `YouTubeDataFormatter.format_video_info`,
  `format_channel_info`, `format_playlist_info`, `_parse_duration`, and the
  `FilterManager` post-filter predicates;
* `src/core/search_service.py` — `YouTubeSearchService.search`,
  `_process_results`, `_should_include_video`;
* `src/core/youtube_api.py` — `YouTubeAPIClient` operations, modelled as an
  oracle environment (`ApiEnv`) answering the four remote operations, with the
  list of issued remote calls recorded as an explicit trace.

Python dictionaries returned by the remote API are modelled as structures of
`Option`-valued fields (`none` = key absent); `dict.get(k, d)` becomes
`Option.getD`, and Python truthiness of optional strings/lists is made
explicit (`truthyS`, `List.isEmpty`).  Exceptions are modelled with `Except`;
`try/except` blocks that swallow an exception are folded into their handler's
net effect, with comments citing the lines involved.
-/

/-- Python truthiness of an optional string: `None` and the empty string are
falsy, every other string is truthy. -/
def truthyS (s : Option String) : Bool :=
  match s with
  | none => false
  | some t => t != ""

/-- The `snippet` block of a raw search hit (`item['snippet']`); every field
is optional because the code reads each key with a `.get` default. -/
structure Snippet where
  title : Option String
  description : Option String
  channelTitle : Option String
  channelId : Option String
  publishedAt : Option String
  /-- models the chain `snippet.get('thumbnails', {}).get('medium', {}).get('url', '')` -/
  thumbnailUrl : Option String
  categoryId : Option String
deriving Repr, DecidableEq

/-- The empty dict used as the default for `item.get('snippet', {})`. -/
def emptySnippet : Snippet :=
  { title := none, description := none, channelTitle := none, channelId := none
    publishedAt := none, thumbnailUrl := none, categoryId := none }

/-- A raw search hit returned by the remote `search.list` operation.  The
`id` block carries exactly one of `videoId`/`channelId`/`playlistId`
depending on the requested content type (the code reads each with
`item.get('id', {}).get(...)`, so all three are optional here). -/
structure RawHit where
  videoId : Option String
  channelId : Option String
  playlistId : Option String
  snippet : Option Snippet
deriving Repr, DecidableEq

/-- The `snippet` block of a `videos.list` detail record (only `categoryId` is read). -/
structure DetailSnippet where
  categoryId : Option String
deriving Repr, DecidableEq

def emptyDetailSnippet : DetailSnippet := { categoryId := none }

/-- The `contentDetails` block of a `videos.list` detail record. -/
structure ContentDetailsRec where
  duration : Option String
deriving Repr, DecidableEq

def emptyContentDetails : ContentDetailsRec := { duration := none }

/-- The `statistics` block of a `videos.list` detail record.  The code converts
the values with `int(...)`; well-formed numeric strings are modelled as `Nat`. -/
structure StatisticsRec where
  viewCount : Option Nat
  likeCount : Option Nat
  commentCount : Option Nat
deriving Repr, DecidableEq

def emptyStatistics : StatisticsRec :=
  { viewCount := none, likeCount := none, commentCount := none }

/-- The `status` block of a detail record. -/
structure StatusRec where
  madeForKids : Option Bool
  privacyStatus : Option String
deriving Repr, DecidableEq

def emptyStatus : StatusRec := { madeForKids := none, privacyStatus := none }

/-- The `topicDetails` block of a `videos.list` detail record. -/
structure TopicDetailsRec where
  relevantTopicIds : Option (List String)
  topicCategories : Option (List String)
deriving Repr, DecidableEq

/-- A `videos.list` detail record. -/
structure VideoDetails where
  id : Option String
  snippet : Option DetailSnippet
  contentDetails : Option ContentDetailsRec
  statistics : Option StatisticsRec
  status : Option StatusRec
  topicDetails : Option TopicDetailsRec
deriving Repr, DecidableEq

/-- The `statistics` block of a `channels.list` detail record. -/
structure ChannelStatisticsRec where
  subscriberCount : Option Nat
  videoCount : Option Nat
  viewCount : Option Nat
deriving Repr, DecidableEq

def emptyChannelStatistics : ChannelStatisticsRec :=
  { subscriberCount := none, videoCount := none, viewCount := none }

/-- The `brandingSettings` block of a `channels.list` record; `keywords` models
the chain `branding.get('channel', {}).get('keywords', '')`. -/
structure BrandingRec where
  keywords : Option String
deriving Repr, DecidableEq

def emptyBranding : BrandingRec := { keywords := none }

/-- A `channels.list` detail record. -/
structure ChannelDetails where
  statistics : Option ChannelStatisticsRec
  brandingSettings : Option BrandingRec
deriving Repr, DecidableEq

/-- The `contentDetails` block of a `playlists.list` record. -/
structure PlaylistContentRec where
  itemCount : Option Nat
deriving Repr, DecidableEq

def emptyPlaylistContent : PlaylistContentRec := { itemCount := none }

/-- A `playlists.list` detail record. -/
structure PlaylistDetails where
  contentDetails : Option PlaylistContentRec
  status : Option StatusRec
deriving Repr, DecidableEq

/-!  ## Duration parsing (`YouTubeDataFormatter._parse_duration`) -/

/-- Python `int(...)` applied to a run of decimal digit characters. -/
def digitsToNat (cs : List Char) : Nat :=
  cs.foldl (fun n c => n * 10 + (c.toNat - 48)) 0

/-- Leftmost match of the regex `(\d+)C` for a single character `C`, as used
by `re.search(r'(\d+)H', ...)` and its `M`/`S` analogues: the first maximal
run of digits that is immediately followed by `c`; returns the integer value
of that run. -/
def scanNum : List Char → Char → Option Nat
  | [], _ => none
  | x :: rest, c =>
    if x.isDigit then
      match (x :: rest).dropWhile Char.isDigit with
      | y :: _ =>
        if y == c then some (digitsToNat ((x :: rest).takeWhile Char.isDigit))
        else scanNum rest c
      | [] => scanNum rest c
    else scanNum rest c

/-- Python `str.replace('PT', '')`: delete every (non-overlapping, leftmost
first) occurrence of the two-character substring `PT`. -/
def replacePT : List Char → List Char
  | [] => []
  | [c] => [c]
  | c1 :: c2 :: rest =>
    if c1 == 'P' && c2 == 'T' then replacePT rest
    else c1 :: replacePT (c2 :: rest)

/-- Python `f"{n:02d}"` for a natural number. -/
def pad2 (n : Nat) : String :=
  if n < 10 then "0" ++ toString n else toString n

/-- Embeds `YouTubeDataFormatter._parse_duration` on the character list of the input
string (`if not duration_string` is the emptiness test for a string). -/
def parse_duration_chars (l : List Char) : String :=
  if l.isEmpty then "Unknown"
  else
    let t := replacePT l
    let hours := if 'H' ∈ t then (scanNum t 'H').getD 0 else 0
    let minutes := if 'M' ∈ t then (scanNum t 'M').getD 0 else 0
    let seconds := if 'S' ∈ t then (scanNum t 'S').getD 0 else 0
    if hours > 0 then pad2 hours ++ ":" ++ pad2 minutes ++ ":" ++ pad2 seconds
    else pad2 minutes ++ ":" ++ pad2 seconds

/-- Embeds `YouTubeDataFormatter._parse_duration`. -/
def parse_duration (duration_string : String) : String :=
  parse_duration_chars duration_string.data

/-!  ## Result formatting (`YouTubeDataFormatter`) -/

/-- The dict produced by `format_video_info`.  String fields are always
present; `Option`-valued fields model keys that are written only when a
detail record is supplied (`made_for_kids`, `duration`, ...).  Note that the
video id is stored under the key `id` — there is no `video_id` key. -/
structure FormattedVideo where
  typ : String
  id : String
  title : String
  description : String
  channel_title : String
  channel_id : String
  published_at : String
  thumbnail_url : String
  url : String
  category_id : String
  category_name : String
  topic_ids : List String
  topic_categories : List String
  topic_categories_formatted : List String
  relevant_topic_names : List String
  inferred_topics : List String
  duration : Option String
  duration_readable : Option String
  view_count : Option Nat
  like_count : Option Nat
  comment_count : Option Nat
  made_for_kids : Option Bool
  privacy_status : Option String
deriving Repr, DecidableEq

/-- The dict produced by `format_channel_info`.  The channel id is stored
under the key `id`; a channel dict carries no `channel_id` key. -/
structure FormattedChannel where
  typ : String
  id : String
  title : String
  description : String
  published_at : String
  thumbnail_url : String
  url : String
  subscriber_count : Option Nat
  video_count : Option Nat
  view_count : Option Nat
  keywords : Option String
deriving Repr, DecidableEq

/-- The dict produced by `format_playlist_info`.  The playlist id is stored
under the key `id` — there is no `playlist_id` key — while `channel_id`
holds the uploading channel from the snippet. -/
structure FormattedPlaylist where
  typ : String
  id : String
  title : String
  description : String
  channel_title : String
  channel_id : String
  published_at : String
  thumbnail_url : String
  url : String
  item_count : Option Nat
  privacy_status : Option String
deriving Repr, DecidableEq

/-- Embeds `YouTubeDataFormatter.format_video_info`.

The calls `YouTubeDataFormatter._get_category_name`,
`YouTubeDataFormatter._format_topic_categories` and
`YouTubeDataFormatter._format_relevant_topic_ids` all raise
`AttributeError` at runtime: those three helpers are static methods of
`FilterManager`, not of `YouTubeDataFormatter` (data_processor.py lines
460-615), while the formatter invokes them through `YouTubeDataFormatter`
(lines 43, 71, 98, 101).  Consequences, faithfully embedded here:

* line 43 is outside any `try`, so when the raw snippet carries a truthy
  `categoryId` the whole call raises (`Except.error`);
* line 71 sits inside the `try` of lines 65-74: `category_id` is updated
  from the detail record first, then the `category_name` assignment raises
  and is caught, leaving `category_name` at `""`;
* lines 98/101 sit inside the `try` of lines 93-105: the `except` clause
  (lines 106-111) resets `topic_ids`, `topic_categories`,
  `topic_categories_formatted` and `relevant_topic_names` to `[]`, so the
  four topic fields of every returned dict are empty lists. -/
def format_video_info (item : RawHit) (video_details : Option VideoDetails) :
    Except String FormattedVideo :=
  let snippet := item.snippet.getD emptySnippet
  let video_id := item.videoId.getD ""
  let search_category_id := snippet.categoryId.getD ""
  if search_category_id != "" then
    Except.error "AttributeError: type object YouTubeDataFormatter has no attribute _get_category_name"
  else
    let base : FormattedVideo :=
      { typ := "video"
        id := video_id
        title := snippet.title.getD "No title"
        description := snippet.description.getD "No description"
        channel_title := snippet.channelTitle.getD "Unknown Channel"
        channel_id := snippet.channelId.getD ""
        published_at := snippet.publishedAt.getD ""
        thumbnail_url := snippet.thumbnailUrl.getD ""
        url := if video_id != "" then "https://www.youtube.com/watch?v=" ++ video_id else ""
        -- search_category_id is not truthy on this branch, so both stay ""
        category_id := ""
        category_name := ""
        topic_ids := []
        topic_categories := []
        topic_categories_formatted := []
        relevant_topic_names := []
        -- category_name is "" here, so no topic is inferred
        inferred_topics := []
        duration := none
        duration_readable := none
        view_count := none
        like_count := none
        comment_count := none
        made_for_kids := none
        privacy_status := none }
    match video_details with
    | none => Except.ok base
    | some details =>
      let detail_category_id := ((details.snippet.getD emptyDetailSnippet).categoryId).getD ""
      let duration0 := ((details.contentDetails.getD emptyContentDetails).duration).getD ""
      let stats := details.statistics.getD emptyStatistics
      let status := details.status.getD emptyStatus
      Except.ok { base with
        -- category_id is "" here, so the detail category is taken when truthy;
        -- the category_name assignment on line 71 raises and is caught
        category_id := if detail_category_id != "" then detail_category_id else ""
        duration := some duration0
        duration_readable := some (parse_duration duration0)
        view_count := some (stats.viewCount.getD 0)
        like_count := some (stats.likeCount.getD 0)
        comment_count := some (stats.commentCount.getD 0)
        made_for_kids := some (status.madeForKids.getD false)
        privacy_status := some (status.privacyStatus.getD "unknown")
        -- the try block of lines 93-105 raises at line 98 after assigning
        -- topic_ids/topic_categories; the except clause resets all four
        topic_ids := []
        topic_categories := []
        topic_categories_formatted := []
        relevant_topic_names := [] }

/-- Embeds `YouTubeDataFormatter.format_channel_info` (total: it only reads keys
with defaults and calls no broken helper). -/
def format_channel_info (item : RawHit) (channel_details : Option ChannelDetails) :
    FormattedChannel :=
  let snippet := item.snippet.getD emptySnippet
  let channel_id := item.channelId.getD ""
  let base : FormattedChannel :=
    { typ := "channel"
      id := channel_id
      title := snippet.title.getD "No title"
      description := snippet.description.getD "No description"
      published_at := snippet.publishedAt.getD ""
      thumbnail_url := snippet.thumbnailUrl.getD ""
      url := if channel_id != "" then "https://www.youtube.com/channel/" ++ channel_id else ""
      subscriber_count := none
      video_count := none
      view_count := none
      keywords := none }
  match channel_details with
  | none => base
  | some details =>
    let stats := details.statistics.getD emptyChannelStatistics
    { base with
      subscriber_count := some (stats.subscriberCount.getD 0)
      video_count := some (stats.videoCount.getD 0)
      view_count := some (stats.viewCount.getD 0)
      keywords := some ((details.brandingSettings.getD emptyBranding).keywords.getD "") }

/-- Embeds `YouTubeDataFormatter.format_playlist_info` (total, as for channels). -/
def format_playlist_info (item : RawHit) (playlist_details : Option PlaylistDetails) :
    FormattedPlaylist :=
  let snippet := item.snippet.getD emptySnippet
  let playlist_id := item.playlistId.getD ""
  let base : FormattedPlaylist :=
    { typ := "playlist"
      id := playlist_id
      title := snippet.title.getD "No title"
      description := snippet.description.getD "No description"
      channel_title := snippet.channelTitle.getD "Unknown Channel"
      channel_id := snippet.channelId.getD ""
      published_at := snippet.publishedAt.getD ""
      thumbnail_url := snippet.thumbnailUrl.getD ""
      url := if playlist_id != "" then "https://www.youtube.com/playlist?list=" ++ playlist_id else ""
      item_count := none
      privacy_status := none }
  match playlist_details with
  | none => base
  | some details =>
    { base with
      item_count := some ((details.contentDetails.getD emptyPlaylistContent).itemCount.getD 0)
      privacy_status := some ((details.status.getD emptyStatus).privacyStatus.getD "unknown") }

/-!  ## Search parameters and post-filters -/

/-- The search parameter dict assembled by the UI.  Only the keys the
orchestrator itself inspects are modelled; the remaining keys (query, order,
safe search, duration/definition, dates) are forwarded verbatim to the remote
client and are absorbed into the oracle `ApiEnv` below. -/
structure SearchParams where
  content_types : Option (List String)
  category_id : Option (List String)
  max_results : Option Nat
  topic_id : Option String
  kids_filter : Option String
deriving Repr, DecidableEq

/-- The topic block of `YouTubeSearchService._should_include_video` (lines
224-229): when a topic id is requested, a result is rejected only when its
`topic_ids` list is non-empty and does not contain the requested id. -/
def topic_filter_pass (info : FormattedVideo) (topic_id : Option String) : Bool :=
  if truthyS topic_id then
    if !info.topic_ids.isEmpty && !(info.topic_ids.contains (topic_id.getD "")) then false
    else true
  else true

/-- The kids block of `YouTubeSearchService._should_include_video` (lines
231-238): applies only when the filter value differs from `any` and the dict
carries a `made_for_kids` key. -/
def kids_filter_pass (info : FormattedVideo) (kids_filter : Option String) : Bool :=
  if kids_filter != some "any" && info.made_for_kids.isSome then
    info.made_for_kids == some (kids_filter == some "yes")
  else true

/-- Embeds `YouTubeSearchService._should_include_video`: both blocks must pass. -/
def should_include_video (info : FormattedVideo) (p : SearchParams) : Bool :=
  topic_filter_pass info p.topic_id && kids_filter_pass info p.kids_filter

/-!  ## Remote client as an oracle with a call trace (`YouTubeAPIClient`) -/

/-- One remote operation issued to the YouTube Data API. -/
inductive RemoteCall where
  | searchList (content_type : String) (category_id : Option String)
  | videosList (ids : List String)
  | channelsList (ids : List String)
  | playlistsList (ids : List String)
deriving Repr, DecidableEq

/-- The remote API as a black-box oracle plus the client's readiness flag
(`self.youtube is not None`).  Each operation either returns its items or
fails with a `RemoteAPIError` message; responses are functions of the
arguments, read-only and shared by nothing (spec section 5).  `search_fn` is
keyed by content type and the category id passed to the call — the remaining
search parameters are constant across one orchestration pass. -/
structure ApiEnv where
  ready : Bool
  search_fn : String → Option String → Except String (List RawHit)
  videos_fn : List String → Except String (List VideoDetails)
  channels_fn : List String → Except String (List ChannelDetails)
  playlists_fn : List String → Except String (List PlaylistDetails)

/-- Embeds `YouTubeAPIClient.is_ready` / `YouTubeSearchService.is_ready`. -/
def is_ready (env : ApiEnv) : Bool :=
  env.ready

/-- Embeds `YouTubeAPIClient.search_content`: raises when the client is not ready,
otherwise issues one `search.list` call.  The call is recorded in the trace
even when the remote side fails. -/
def api_search_content (env : ApiEnv) (content_type : String) (category : Option String) :
    Except String (List RawHit) × List RemoteCall :=
  if env.ready then (env.search_fn content_type category, [RemoteCall.searchList content_type category])
  else (Except.error "YouTube API client not initialized", [])

/-- Embeds `YouTubeAPIClient.get_video_details`: one `videos.list` call for the
whole id batch. -/
def api_get_video_details (env : ApiEnv) (ids : List String) :
    Except String (List VideoDetails) × List RemoteCall :=
  if env.ready then (env.videos_fn ids, [RemoteCall.videosList ids])
  else (Except.error "YouTube API client not initialized", [])

/-- Embeds `YouTubeAPIClient.get_channel_details`. -/
def api_get_channel_details (env : ApiEnv) (ids : List String) :
    Except String (List ChannelDetails) × List RemoteCall :=
  if env.ready then (env.channels_fn ids, [RemoteCall.channelsList ids])
  else (Except.error "YouTube API client not initialized", [])

/-- Embeds `YouTubeAPIClient.get_playlist_details`. -/
def api_get_playlist_details (env : ApiEnv) (ids : List String) :
    Except String (List PlaylistDetails) × List RemoteCall :=
  if env.ready then (env.playlists_fn ids, [RemoteCall.playlistsList ids])
  else (Except.error "YouTube API client not initialized", [])

/-!  ## Result processing (`YouTubeSearchService._process_results`) -/

/-- A formatted result of any content kind, as stored in the merged stream. -/
inductive Formatted where
  | video (v : FormattedVideo)
  | channel (c : FormattedChannel)
  | playlist (pl : FormattedPlaylist)
deriving Repr, DecidableEq

/-- The entity id (the `id` key) of a formatted result. -/
def formatted_id (r : Formatted) : String :=
  match r with
  | .video v => v.id
  | .channel c => c.id
  | .playlist pl => pl.id

/-- Lines 142-146: collect the truthy `videoId` of every raw hit. -/
def collect_video_ids (raw : List RawHit) : List String :=
  raw.filterMap fun item =>
    if truthyS item.videoId then some (item.videoId.getD "") else none

/-- Lines 153-157: the id-keyed lookup dict built from the detail list; a
later record with the same truthy id overwrites an earlier one, exactly as
repeated Python dict insertion does. -/
def lookup_video_details (ds : List VideoDetails) (vid : String) : Option VideoDetails :=
  ds.foldl (fun acc d => if truthyS d.id && d.id == some vid then some d else acc) none

/-- The `video` branch of `_process_results` (lines 140-175): one batched
`videos.list` call for all collected ids of this raw-result list (skipped
when no ids were collected); a detail failure leaves the lookup dict empty;
each hit is then formatted against its matching record, a formatting
exception drops that hit (per-item `try`), and the post-filters are applied. -/
def process_video_results (env : ApiEnv) (raw : List RawHit) (p : SearchParams) :
    List Formatted × List RemoteCall :=
  let video_ids := collect_video_ids raw
  let (details_list, trace) :=
    if video_ids.isEmpty then ([], [])
    else
      match api_get_video_details env video_ids with
      | (Except.ok ds, tr) => (ds, tr)
      | (Except.error _, tr) => ([], tr)
  let formatted := raw.filterMap fun item =>
    let vd :=
      if truthyS item.videoId then lookup_video_details details_list (item.videoId.getD "")
      else none
    match format_video_info item vd with
    | Except.ok info =>
      if should_include_video info p then some (Formatted.video info) else none
    | Except.error _ => none
  (formatted, trace)

/-- The `channel` arm of `_process_results` (lines 179-191): one
`channels.list` call per hit with a truthy `channelId`; if that call fails
the per-item `try` drops the hit; `channel_details[0] if channel_details
else None` degrades an empty response to detail-less formatting. -/
def process_channel_results (env : ApiEnv) : List RawHit → List Formatted × List RemoteCall
  | [] => ([], [])
  | item :: rest =>
    let (fmt1, tr1) :=
      if truthyS item.channelId then
        match api_get_channel_details env [item.channelId.getD ""] with
        | (Except.ok ds, tr) => ([Formatted.channel (format_channel_info item ds.head?)], tr)
        | (Except.error _, tr) => ([], tr)
      else ([Formatted.channel (format_channel_info item none)], [])
    let (fmtR, trR) := process_channel_results env rest
    (fmt1 ++ fmtR, tr1 ++ trR)

/-- The `playlist` arm of `_process_results` (lines 193-203), analogous to
the channel arm. -/
def process_playlist_results (env : ApiEnv) : List RawHit → List Formatted × List RemoteCall
  | [] => ([], [])
  | item :: rest =>
    let (fmt1, tr1) :=
      if truthyS item.playlistId then
        match api_get_playlist_details env [item.playlistId.getD ""] with
        | (Except.ok ds, tr) => ([Formatted.playlist (format_playlist_info item ds.head?)], tr)
        | (Except.error _, tr) => ([], tr)
      else ([Formatted.playlist (format_playlist_info item none)], [])
    let (fmtR, trR) := process_playlist_results env rest
    (fmt1 ++ fmtR, tr1 ++ trR)

/-- Embeds `YouTubeSearchService._process_results`.  For a content type other than
the three known kinds, the loop body binds no `formatted_info` and the
append raises `NameError`, caught by the per-item `try`: every hit is
skipped and no remote call is made. -/
def process_results (env : ApiEnv) (raw : List RawHit) (content_type : String)
    (p : SearchParams) : List Formatted × List RemoteCall :=
  if content_type == "video" then process_video_results env raw p
  else if content_type == "channel" then process_channel_results env raw
  else if content_type == "playlist" then process_playlist_results env raw
  else ([], [])

/-!  ## Deduplication and cap (`YouTubeSearchService.search`, lines 78-91) -/

/-- Line 84: `result.get('video_id') or result.get('channel_id') or
result.get('playlist_id')`.  None of the formatted dicts carries a
`video_id` or `playlist_id` key (the formatter stores the entity id under
`id`), and a channel dict carries no `channel_id` key either, so the chain
reduces to the `channel_id` field of video/playlist dicts — the uploading
channel from the snippet — under Python `or` truthiness (an empty string
falls through to `None`). -/
def result_key (r : Formatted) : Option String :=
  match r with
  | .video v => if v.channel_id != "" then some v.channel_id else none
  | .channel _ => none
  | .playlist pl => if pl.channel_id != "" then some pl.channel_id else none

/-- Lines 83-89: walk the merged stream, keep a result whose key is unseen,
and break once `max_results` results have been kept (the length test runs
after the append, so the cap is reached inclusively). -/
def dedup_cap_aux (max : Nat) : List Formatted → List (Option String) → Nat → List Formatted
  | [], _, _ => []
  | r :: rs, seen, n =>
    if result_key r ∈ seen then dedup_cap_aux max rs seen n
    else if n + 1 ≥ max then [r]
    else r :: dedup_cap_aux max rs (result_key r :: seen) (n + 1)

/-- The dedup-and-cap pass over the merged multi-category stream. -/
def dedup_and_cap (max : Nat) (l : List Formatted) : List Formatted :=
  dedup_cap_aux max l [] 0

/-!  ## The orchestrator (`YouTubeSearchService.search`) -/

/-- The result envelope (`results` dict of lines 38-42). -/
structure SearchResults where
  videos : List Formatted
  channels : List Formatted
  playlists : List Formatted
deriving Repr, DecidableEq

def empty_results : SearchResults :=
  { videos := [], channels := [], playlists := [] }

/-- Lines 117-122: store one content type's formatted list in its slot. -/
def store_results (r : SearchResults) (content_type : String) (fmt : List Formatted) :
    SearchResults :=
  if content_type == "video" then { r with videos := fmt }
  else if content_type == "channel" then { r with channels := fmt }
  else if content_type == "playlist" then { r with playlists := fmt }
  else r

/-- Read back the slot of a content type (empty for an unknown type). -/
def list_for (r : SearchResults) (content_type : String) : List Formatted :=
  if content_type == "video" then r.videos
  else if content_type == "channel" then r.channels
  else if content_type == "playlist" then r.playlists
  else []

/-- The per-category fan-out loop of the multi-category branch (lines
54-76): one search call per category id; a failing unit is skipped
(`except ... continue`) without touching its siblings; the surviving
formatted lists are concatenated in category-list order. -/
def fanout (env : ApiEnv) (p : SearchParams) (content_type : String) :
    List String → List Formatted × List RemoteCall
  | [] => ([], [])
  | cid :: rest =>
    let (res, tr1) := api_search_content env content_type (some cid)
    let (fmt1, tr2) :=
      match res with
      | Except.error _ => ([], [])
      | Except.ok raw => process_results env raw content_type p
    let (fmtR, trR) := fanout env p content_type rest
    (fmt1 ++ fmtR, tr1 ++ tr2 ++ trR)

/-- One iteration of the outer `for content_type in content_types` loop.
Returns `none` when the single-call branch fails (its `continue` skips the
store, leaving the envelope slot untouched); the multi-category branch
always stores its deduplicated, capped list.  In the single-call branch the
category parameter of the remote call is absent: the UI supplies either
`None` or a non-empty list, and a `None` category is omitted from the
remote request. -/
def search_one_type (env : ApiEnv) (p : SearchParams) (content_type : String) :
    Option (List Formatted) × List RemoteCall :=
  match p.category_id with
  | some (c :: cs) =>
    let (all_formatted, trace) := fanout env p content_type (c :: cs)
    (some (dedup_and_cap (p.max_results.getD 10) all_formatted), trace)
  | _ =>
    let (res, tr1) := api_search_content env content_type none
    match res with
    | Except.error _ => (none, tr1)
    | Except.ok raw =>
      let (fmt, tr2) := process_results env raw content_type p
      (some fmt, tr1 ++ tr2)

/-- Embeds `YouTubeSearchService.search` (lines 25-124), returning the result
envelope together with the ordered trace of remote calls issued.  The
readiness gate (lines 35-36) raises before any remote call. -/
def search (env : ApiEnv) (p : SearchParams) :
    Except String SearchResults × List RemoteCall :=
  if !(is_ready env) then (Except.error "YouTube API not initialized", [])
  else
    let step := fun (acc : SearchResults × List RemoteCall) ct =>
      let (res, tr) := search_one_type env p ct
      (match res with
       | some fmt => store_results acc.1 ct fmt
       | none => acc.1,
       acc.2 ++ tr)
    let (r, trace) := (p.content_types.getD ["video"]).foldl step (empty_results, [])
    (Except.ok r, trace)

/-!  ## Trace observations -/

/-- The `search.list` calls of a trace. -/
def search_calls (tr : List RemoteCall) : List RemoteCall :=
  tr.filter fun c =>
    match c with
    | .searchList _ _ => true
    | _ => false

/-- The id batches of the `videos.list` calls of a trace, in issue order. -/
def video_detail_batches : List RemoteCall → List (List String)
  | [] => []
  | .videosList ids :: rest => ids :: video_detail_batches rest
  | _ :: rest => video_detail_batches rest

/-!  ## Spec-side comparison definitions and concrete test fixtures -/

/-- The spec's `matchesKids(result, kidsFilter)` predicate, stated from the
spec's words for comparison with the code: true if the filter is `any`,
else compare the made-for-kids flag against the boolean implied by
`yes`/`no`; a result with no flag at all passes. -/
def spec_matchesKids (info : FormattedVideo) (kids_filter : String) : Bool :=
  if kids_filter == "any" then true
  else
    match info.made_for_kids with
    | some b => b == (kids_filter == "yes")
    | none => true

/-- The amended topic post-filter actually implemented by the code: pass
when no topic is requested, otherwise pass when the result's topic-id list
is empty or contains the requested id. -/
def amended_matchesTopic (info : FormattedVideo) (topic_id : Option String) : Bool :=
  if truthyS topic_id then
    info.topic_ids.isEmpty || info.topic_ids.contains (topic_id.getD "")
  else true

/-- A well-formedness predicate for one optional duration component: when
present, it is a non-empty string of decimal digits. -/
def compOk (comp : Option (List Char)) : Prop :=
  ∀ l, comp = some l → (l ≠ [] ∧ ∀ c ∈ l, c.isDigit = true)

/-- The characters contributed by one optional duration component: the
digits followed by the marker letter, or nothing when absent. -/
def componentPart (comp : Option (List Char)) (marker : Char) : List Char :=
  match comp with
  | none => []
  | some ds => ds ++ [marker]

/-- An ISO-8601-style duration token of the shape accepted by the spec:
`PT`, then any subset of the `H`/`M`/`S` components. -/
def durationToken (hs ms ss : Option (List Char)) : List Char :=
  'P' :: 'T' :: (componentPart hs 'H' ++ (componentPart ms 'M' ++ componentPart ss 'S'))

/-- The numeric value of one optional duration component (0 when absent). -/
def componentVal (comp : Option (List Char)) : Nat :=
  match comp with
  | none => 0
  | some ds => digitsToNat ds

/-- The rendering demanded by the spec: `MM:SS` when hours are zero,
`HH:MM:SS` otherwise, each component zero-padded to two digits. -/
def renderDuration (h m s : Nat) : String :=
  if h > 0 then pad2 h ++ ":" ++ pad2 m ++ ":" ++ pad2 s
  else pad2 m ++ ":" ++ pad2 s

/-- A raw video hit with the given video id, whose snippet carries only the
uploading channel id. -/
def vhit (vid ch : String) : RawHit :=
  { videoId := some vid, channelId := none, playlistId := none
    snippet := some { emptySnippet with channelId := some ch } }

/-- A raw channel hit with the given channel id and no snippet. -/
def chit (cid : String) : RawHit :=
  { videoId := none, channelId := some cid, playlistId := none, snippet := none }

/-- Ready environment for C1: two video categories, each returning one hit;
the two hits carry distinct video ids but the same uploading channel. -/
def C1_env : ApiEnv :=
  { ready := true
    search_fn := fun ct cat =>
      if ct == "video" && cat == some "1" then Except.ok [vhit "A" "C"]
      else if ct == "video" && cat == some "2" then Except.ok [vhit "B" "C"]
      else Except.ok []
    videos_fn := fun _ => Except.ok []
    channels_fn := fun _ => Except.ok []
    playlists_fn := fun _ => Except.ok [] }

def C1_params : SearchParams :=
  { content_types := some ["video"], category_id := some ["1", "2"]
    max_results := some 10, topic_id := none, kids_filter := some "any" }

/-- Ready environment for C2: two video categories returning hits with
distinct ids and distinct channels. -/
def C2_env : ApiEnv :=
  { ready := true
    search_fn := fun ct cat =>
      if ct == "video" && cat == some "1" then Except.ok [vhit "A" "CA"]
      else if ct == "video" && cat == some "2" then Except.ok [vhit "B" "CB"]
      else Except.ok []
    videos_fn := fun _ => Except.ok []
    channels_fn := fun _ => Except.ok []
    playlists_fn := fun _ => Except.ok [] }

def C2_params : SearchParams :=
  { content_types := some ["video"], category_id := some ["1", "2"]
    max_results := some 10, topic_id := none, kids_filter := some "any" }

/-- Ready environment for C3: every search returns no hits (only the issued
calls matter). -/
def C3_env : ApiEnv :=
  { ready := true
    search_fn := fun _ _ => Except.ok []
    videos_fn := fun _ => Except.ok []
    channels_fn := fun _ => Except.ok []
    playlists_fn := fun _ => Except.ok [] }

/-- A channel search with a non-empty category list. -/
def C3_params : SearchParams :=
  { content_types := some ["channel"], category_id := some ["1", "2"]
    max_results := some 10, topic_id := none, kids_filter := some "any" }

/-- A raw video hit with no snippet at all, formatted without details:
its topic-id list is empty. -/
def C4_hit : RawHit :=
  { videoId := some "V", channelId := none, playlistId := none, snippet := none }

/-- A search requesting a specific topic id. -/
def C4_params : SearchParams :=
  { content_types := some ["video"], category_id := none
    max_results := some 10, topic_id := some "/m/04rlf", kids_filter := some "any" }

/-- Ready environment for C5: category 1 returns two hits with distinct
video ids but one shared uploading channel; category 2 returns nothing. -/
def C5_env : ApiEnv :=
  { ready := true
    search_fn := fun ct cat =>
      if ct == "video" && cat == some "1" then Except.ok [vhit "A" "C", vhit "B" "C"]
      else Except.ok []
    videos_fn := fun _ => Except.ok []
    channels_fn := fun _ => Except.ok []
    playlists_fn := fun _ => Except.ok [] }

def C5_params : SearchParams :=
  { content_types := some ["video"], category_id := some ["1", "2"]
    max_results := some 2, topic_id := none, kids_filter := some "any" }

/-- Ready environment for C6: categories 1 and 2 succeed with one video
each, category 3 fails with a remote error. -/
def C6_env : ApiEnv :=
  { ready := true
    search_fn := fun ct cat =>
      if ct == "video" && cat == some "1" then Except.ok [vhit "A" "CA"]
      else if ct == "video" && cat == some "2" then Except.ok [vhit "B" "CB"]
      else if ct == "video" && cat == some "3" then Except.error "RemoteAPIError: 500"
      else Except.ok []
    videos_fn := fun _ => Except.ok []
    channels_fn := fun _ => Except.ok []
    playlists_fn := fun _ => Except.ok [] }

def C6_params : SearchParams :=
  { content_types := some ["video"], category_id := some ["1", "2", "3"]
    max_results := some 10, topic_id := none, kids_filter := some "any" }

/-- An environment whose client is not ready (no credential configured). -/
def C7_env : ApiEnv :=
  { ready := false
    search_fn := fun _ _ => Except.ok []
    videos_fn := fun _ => Except.ok []
    channels_fn := fun _ => Except.ok []
    playlists_fn := fun _ => Except.ok [] }

def C7_params : SearchParams :=
  { content_types := some ["video", "channel"], category_id := some ["1"]
    max_results := some 10, topic_id := none, kids_filter := some "any" }

/-- Raw hit for C10. -/
def C10_item : RawHit :=
  { videoId := some "V", channelId := none, playlistId := none, snippet := none }

/-- A detail record whose `status` block is present but carries no
`madeForKids` key. -/
def C10_details : VideoDetails :=
  { id := some "V", snippet := none, contentDetails := none, statistics := none
    status := some { madeForKids := none, privacyStatus := none }, topicDetails := none }

/-- The dict `format_video_info` produces for `C10_item` with
`C10_details`. -/
def C10_info : FormattedVideo :=
  { typ := "video"
    id := "V"
    title := "No title"
    description := "No description"
    channel_title := "Unknown Channel"
    channel_id := ""
    published_at := ""
    thumbnail_url := ""
    url := "https://www.youtube.com/watch?v=V"
    category_id := ""
    category_name := ""
    topic_ids := []
    topic_categories := []
    topic_categories_formatted := []
    relevant_topic_names := []
    inferred_topics := []
    duration := some ""
    duration_readable := some "Unknown"
    view_count := some 0
    like_count := some 0
    comment_count := some 0
    made_for_kids := some false
    privacy_status := some "unknown" }

/-- A search with the kids filter set to `yes`. -/
def C10_params : SearchParams :=
  { content_types := some ["video"], category_id := none
    max_results := some 10, topic_id := none, kids_filter := some "yes" }

/-!  ## Claim theorems -/

/-- C1.  The multi-category dedup does NOT key on the result's own entity
id: the formatted dicts store that id under `id`, while the dedup reads the
nonexistent `video_id`/`playlist_id` keys and falls through to `channel_id`
(the uploading channel).  Here the two categories return two videos with
distinct entity ids `A` and `B` (first conjunct: both survive formatting
and the post-filters, in fan-out order), yet the merged output keeps only
`A` because both were uploaded by channel `C` — contradicting the claim
that results with distinct entity ids are both kept. -/
theorem C1_dedup_uses_uploader_channel_key :
    (fanout C1_env C1_params "video" ["1", "2"]).1.map formatted_id = ["A", "B"] ∧
    (search C1_env C1_params).1.toOption.map (fun r => r.videos.map formatted_id) =
      some ["A"] :=
  ⟨rfl, rfl⟩

/-- C5.  Because the dedup keys on the uploading channel rather than the
entity id, the capped output can be shorter than
`min(max_results, number of unique post-filter results)`: category 1
returns two unique videos (distinct entity ids `A`, `B`, shared channel),
`max_results` is 2, yet the output holds a single result. -/
theorem C5_cap_miscounts_unique_results :
    (fanout C5_env C5_params "video" ["1", "2"]).1.map formatted_id = ["A", "B"] ∧
    (search C5_env C5_params).1.toOption.map
        (fun r => (r.videos.map formatted_id, r.videos.length)) = some (["A"], 1) :=
  ⟨rfl, rfl⟩

/-- C2 counterexample.  An orchestration pass over the video content type
with two categories issues two batched `videos.list` calls — one per
category — not exactly one for the whole pass. -/
theorem C2_counterexample :
    video_detail_batches (search C2_env C2_params).2 = [["A"], ["B"]] ∧
    (video_detail_batches (search C2_env C2_params).2).length ≠ 1 :=
  ⟨rfl, by decide⟩

/-- C3 counterexample.  A channel search with `category_ids = ["1", "2"]`
issues two `search.list` calls, each carrying its category id — not exactly
one call with no category parameter. -/
theorem C3_counterexample :
    search_calls (search C3_env C3_params).2 =
      [RemoteCall.searchList "channel" (some "1"),
       RemoteCall.searchList "channel" (some "2")] ∧
    (search_calls (search C3_env C3_params).2).length ≠ 1 :=
  ⟨rfl, by decide⟩

/-- C4 counterexample.  A formatted video whose topic-id list is empty
passes the topic post-filter even though the topic id `/m/04rlf` was
requested — the claim demands that it not pass. -/
theorem C4_counterexample :
    (format_video_info C4_hit none).toOption.map
        (fun info => (info.topic_ids, should_include_video info C4_params)) =
      some ([], true) :=
  rfl

/-- C4 amended.  The topic post-filter implemented by
`_should_include_video` passes a result when no topic id is requested, and
otherwise exactly when the result's topic-id list is empty or contains the
requested id. -/
theorem C4_amended_topic_filter (info : FormattedVideo) (tid : Option String) :
    topic_filter_pass info tid = amended_matchesTopic info tid := by
  unfold topic_filter_pass amended_matchesTopic
  cases htr : truthyS tid
  · simp
  · cases hemp : info.topic_ids.isEmpty <;>
      cases hcont : info.topic_ids.contains (tid.getD "") <;>
        simp [hemp, hcont]

/-- C8.  The kids block of `_should_include_video` agrees with the spec's
`matchesKids` on every filter value: `any` always passes; otherwise a
result with a `made_for_kids` key passes exactly when the flag equals the
boolean implied by the filter, and a result without the key always
passes. -/
theorem C8_kids_filter_matches_spec (info : FormattedVideo) (kf : String) :
    kids_filter_pass info (some kf) = spec_matchesKids info kf := by
  have hred : (some kf != some "any") = (kf != "any") := rfl
  by_cases hkf : kf = "any"
  · subst hkf
    cases hmk : info.made_for_kids <;> simp [kids_filter_pass, spec_matchesKids, hmk]
  · cases hmk : info.made_for_kids <;>
      simp [kids_filter_pass, spec_matchesKids, hmk, hred, hkf]

/-- C7.  When the client is not ready, `search` fails with the
not-initialized error before issuing any remote call: the trace is empty. -/
theorem C7_readiness_gate (env : ApiEnv) (p : SearchParams) (h : env.ready = false) :
    search env p = (Except.error "YouTube API not initialized", []) := by
  simp [search, is_ready, h]

/-- C7 witness: a concrete unconfigured client. -/
theorem C7_witness :
    search C7_env C7_params = (Except.error "YouTube API not initialized", []) :=
  C7_readiness_gate C7_env C7_params rfl

/-- Helper: the trace of `search` under a ready client and a single
requested content type is the trace of that type's pass. -/
theorem search_trace_single (env : ApiEnv) (p : SearchParams) (ct : String)
    (h : env.ready = true) (hct : p.content_types = some [ct]) :
    (search env p).2 = (search_one_type env p ct).2 := by
  simp [search, is_ready, h, hct]

/-- Helper: the envelope of `search` under a ready client and a single
requested content type. -/
theorem search_fst_single (env : ApiEnv) (p : SearchParams) (ct : String)
    (h : env.ready = true) (hct : p.content_types = some [ct]) :
    (search env p).1 = Except.ok
      (match (search_one_type env p ct).1 with
       | some fmt => store_results empty_results ct fmt
       | none => empty_results) := by
  simp [search, is_ready, h, hct]

/-- Helper: the multi-category branch of one content-type pass. -/
theorem search_one_type_multi (env : ApiEnv) (p : SearchParams) (ct : String)
    (c : String) (cs : List String) (hcat : p.category_id = some (c :: cs)) :
    search_one_type env p ct =
      (some (dedup_and_cap (p.max_results.getD 10) (fanout env p ct (c :: cs)).1),
       (fanout env p ct (c :: cs)).2) := by
  simp [search_one_type, hcat]

/-- Helper: `video_detail_batches` distributes over concatenation. -/
theorem video_detail_batches_append (a b : List RemoteCall) :
    video_detail_batches (a ++ b) = video_detail_batches a ++ video_detail_batches b := by
  induction a with
  | nil => rfl
  | cons c rest ih => cases c <;> simp [video_detail_batches, ih]

/-- Helper: the video branch of `_process_results` issues exactly one
batched `videos.list` call when any ids were collected, and none
otherwise. -/
theorem process_video_trace (env : ApiEnv) (raw : List RawHit) (p : SearchParams)
    (h : env.ready = true) :
    (process_video_results env raw p).2 =
      if (collect_video_ids raw).isEmpty then []
      else [RemoteCall.videosList (collect_video_ids raw)] := by
  cases hids : (collect_video_ids raw).isEmpty with
  | true => simp [process_video_results, hids]
  | false =>
    cases hv : env.videos_fn (collect_video_ids raw) <;>
      simp [process_video_results, api_get_video_details, h, hids, hv]

/-- Helper: no branch of `_process_results` issues a `search.list` call. -/
theorem process_trace_no_search (env : ApiEnv) (raw : List RawHit) (ct : String)
    (p : SearchParams) :
    search_calls (process_results env raw ct p).2 = [] := by
  by_cases hv : ct = "video"
  · subst hv
    cases hids : (collect_video_ids raw).isEmpty with
    | true => simp [process_results, process_video_results, hids, search_calls]
    | false =>
      cases hr : env.ready with
      | false =>
        simp [process_results, process_video_results, api_get_video_details, hr, hids,
          search_calls]
      | true =>
        cases hvf : env.videos_fn (collect_video_ids raw) <;>
          simp [process_results, process_video_results, api_get_video_details, hr, hids,
            hvf, search_calls]
  · by_cases hc : ct = "channel"
    · subst hc
      simp only [process_results]
      norm_num
      induction raw with
      | nil => rfl
      | cons item rest ih =>
        cases ht : truthyS item.channelId with
        | false => simp [process_channel_results, ht, search_calls] at ih ⊢; exact ih
        | true =>
          cases hr : env.ready with
          | false =>
            simp [process_channel_results, api_get_channel_details, ht, hr, search_calls,
              List.filter_append] at ih ⊢
            exact ih
          | true =>
            cases hd : env.channels_fn [item.channelId.getD ""] <;>
              · simp [process_channel_results, api_get_channel_details, ht, hr, hd,
                  search_calls, List.filter_append] at ih ⊢
                exact ih
    · by_cases hp : ct = "playlist"
      · subst hp
        simp only [process_results]
        norm_num
        induction raw with
        | nil => rfl
        | cons item rest ih =>
          cases ht : truthyS item.playlistId with
          | false => simp [process_playlist_results, ht, search_calls] at ih ⊢; exact ih
          | true =>
            cases hr : env.ready with
            | false =>
              simp [process_playlist_results, api_get_playlist_details, ht, hr,
                search_calls, List.filter_append] at ih ⊢
              exact ih
            | true =>
              cases hd : env.playlists_fn [item.playlistId.getD ""] <;>
                · simp [process_playlist_results, api_get_playlist_details, ht, hr, hd,
                    search_calls, List.filter_append] at ih ⊢
                  exact ih
      · simp [process_results, hv, hc, hp, search_calls]

/-- Helper: under a ready client the fan-out issues exactly one
`search.list` call per category id, in order, each carrying its id. -/
theorem fanout_trace_searches (env : ApiEnv) (p : SearchParams) (ct : String)
    (h : env.ready = true) :
    ∀ cids, search_calls (fanout env p ct cids).2 =
      cids.map (fun cid => RemoteCall.searchList ct (some cid)) := by
  intro cids
  induction cids with
  | nil => rfl
  | cons cid rest ih =>
    cases hres : env.search_fn ct (some cid) with
    | error e =>
      simp [fanout, api_search_content, h, hres, search_calls, List.filter_append] at ih ⊢
      exact ih
    | ok raw =>
      have hpr := process_trace_no_search env raw ct p
      simp only [search_calls] at hpr ih ⊢
      simp [fanout, api_search_content, h, hres, List.filter_append, hpr, ih]

/-- Helper: under a ready client the video fan-out issues exactly one
batched `videos.list` call per category whose search succeeded with at
least one collected video id, carrying that category's whole id batch. -/
theorem fanout_video_batches (env : ApiEnv) (p : SearchParams) (h : env.ready = true) :
    ∀ cids, video_detail_batches (fanout env p "video" cids).2 =
      cids.filterMap (fun cid =>
        match env.search_fn "video" (some cid) with
        | Except.ok raw =>
          if (collect_video_ids raw).isEmpty then none
          else some (collect_video_ids raw)
        | Except.error _ => none) := by
  intro cids
  induction cids with
  | nil => rfl
  | cons cid rest ih =>
    cases hres : env.search_fn "video" (some cid) with
    | error e =>
      simp [fanout, api_search_content, h, hres, video_detail_batches_append,
        video_detail_batches, ih]
    | ok raw =>
      have hpr := process_video_trace env raw p h
      cases hcv : collect_video_ids raw with
      | nil =>
        rw [hcv] at hpr
        simp [fanout, api_search_content, h, hres, process_results, hpr, hcv,
          video_detail_batches_append, video_detail_batches, ih]
      | cons a as =>
        rw [hcv] at hpr
        simp [fanout, api_search_content, h, hres, process_results, hpr, hcv,
          video_detail_batches_append, video_detail_batches, ih]

/-- C2 amended.  Detail batching is per fan-out call, not per orchestration
pass: for a multi-category video search the `videos.list` calls are in
bijection with the categories whose search succeeded and returned at least
one video id, and each such call carries that category's entire id batch
in one request (never one call per video id). -/
theorem C2_amended_batching_per_fanout (env : ApiEnv) (p : SearchParams)
    (cids : List String) (h : env.ready = true)
    (hct : p.content_types = some ["video"]) (hcat : p.category_id = some cids)
    (hne : cids ≠ []) :
    video_detail_batches (search env p).2 =
      cids.filterMap (fun cid =>
        match env.search_fn "video" (some cid) with
        | Except.ok raw =>
          if (collect_video_ids raw).isEmpty then none
          else some (collect_video_ids raw)
        | Except.error _ => none) := by
  obtain ⟨c, cs, rfl⟩ := List.exists_cons_of_ne_nil hne
  rw [search_trace_single env p "video" h hct,
    search_one_type_multi env p "video" c cs hcat]
  exact fanout_video_batches env p h (c :: cs)

/-- C2 amended, witnessed at a concrete two-category pass. -/
theorem C2_amended_witness :
    video_detail_batches (search C2_env C2_params).2 =
      (["1", "2"].filterMap (fun cid =>
        match C2_env.search_fn "video" (some cid) with
        | Except.ok raw =>
          if (collect_video_ids raw).isEmpty then none
          else some (collect_video_ids raw)
        | Except.error _ => none)) :=
  C2_amended_batching_per_fanout C2_env C2_params ["1", "2"] rfl rfl rfl
    (List.cons_ne_nil _ _)

/-- C3 amended.  For a channel or playlist search with a non-empty category
list the category filter is not ignored: the orchestrator issues one
`search.list` call per category id, each carrying that id as its category
parameter. -/
theorem C3_amended_category_fanout (env : ApiEnv) (p : SearchParams)
    (cids : List String) (ct : String) (h : env.ready = true)
    (_hkind : ct = "channel" ∨ ct = "playlist")
    (hct : p.content_types = some [ct]) (hcat : p.category_id = some cids)
    (hne : cids ≠ []) :
    search_calls (search env p).2 =
      cids.map (fun cid => RemoteCall.searchList ct (some cid)) := by
  obtain ⟨c, cs, rfl⟩ := List.exists_cons_of_ne_nil hne
  rw [search_trace_single env p ct h hct, search_one_type_multi env p ct c cs hcat]
  exact fanout_trace_searches env p ct h (c :: cs)

/-- C3 amended, witnessed at a concrete two-category channel search. -/
theorem C3_amended_witness :
    search_calls (search C3_env C3_params).2 =
      ["1", "2"].map (fun cid => RemoteCall.searchList "channel" (some cid)) :=
  C3_amended_category_fanout C3_env C3_params ["1", "2"] "channel" rfl (Or.inl rfl)
    rfl rfl (List.cons_ne_nil _ _)

/-- Helper: under a ready client the fan-out's merged stream is the
concatenation, in category-list order, of the processed results of exactly
the categories whose search succeeded. -/
theorem fanout_fst (env : ApiEnv) (p : SearchParams) (ct : String)
    (h : env.ready = true) :
    ∀ cids, (fanout env p ct cids).1 =
      (cids.filterMap fun cid =>
        (env.search_fn ct (some cid)).toOption.map
          (fun raw => (process_results env raw ct p).1)).flatten := by
  intro cids
  induction cids with
  | nil => rfl
  | cons cid rest ih =>
    cases hres : env.search_fn ct (some cid) with
    | error e =>
      simp [fanout, api_search_content, h, hres, ih, List.filterMap_cons, Except.toOption]
    | ok raw =>
      simp [fanout, api_search_content, h, hres, ih, List.filterMap_cons, Except.toOption]

/-- C6.  Under a ready client, `search` never raises: it returns a result
envelope; for a multi-category pass the content type's list is built from
exactly the categories whose remote search succeeded (failing units are
skipped without aborting their siblings); and if every fan-out unit fails
the content type's list is empty rather than an error. -/
theorem C6_partial_failure_tolerance (env : ApiEnv) (p : SearchParams)
    (h : env.ready = true) :
    (∃ r, (search env p).1 = Except.ok r) ∧
    (∀ ct c cs, p.content_types = some [ct] → p.category_id = some (c :: cs) →
      (search env p).1.toOption.map (fun r => list_for r ct) =
        some (dedup_and_cap (p.max_results.getD 10)
          (((c :: cs).filterMap fun cid =>
            (env.search_fn ct (some cid)).toOption.map
              (fun raw => (process_results env raw ct p).1)).flatten))) ∧
    (∀ ct c cs, p.content_types = some [ct] → p.category_id = some (c :: cs) →
      (∀ cid ∈ c :: cs, (env.search_fn ct (some cid)).toOption = none) →
      (search env p).1.toOption.map (fun r => list_for r ct) = some []) := by
  have hex : ∃ r, (search env p).1 = Except.ok r := by
    unfold search
    simp [is_ready, h]
  have hmain : ∀ ct c cs, p.content_types = some [ct] → p.category_id = some (c :: cs) →
      (search env p).1.toOption.map (fun r => list_for r ct) =
        some (dedup_and_cap (p.max_results.getD 10)
          (((c :: cs).filterMap fun cid =>
            (env.search_fn ct (some cid)).toOption.map
              (fun raw => (process_results env raw ct p).1)).flatten)) := by
    intro ct c cs hct hcat
    rw [search_fst_single env p ct h hct, search_one_type_multi env p ct c cs hcat]
    rw [fanout_fst env p ct h (c :: cs)]
    by_cases hv : ct = "video"
    · subst hv; rfl
    · by_cases hc : ct = "channel"
      · subst hc; rfl
      · by_cases hpl : ct = "playlist"
        · subst hpl; rfl
        · -- an unknown content type: nothing is stored and nothing is
          -- processed, so both sides are empty
          have hnil : ∀ x ∈ ((c :: cs).filterMap fun cid =>
              (env.search_fn ct (some cid)).toOption.map
                (fun raw => (process_results env raw ct p).1)), x = ([] : List Formatted) := by
            intro x hx
            rw [List.mem_filterMap] at hx
            obtain ⟨cid, hcid, hfx⟩ := hx
            cases henv : env.search_fn ct (some cid) with
            | error e =>
              rw [henv] at hfx
              simp [Except.toOption] at hfx
            | ok raw =>
              rw [henv] at hfx
              simp [Except.toOption] at hfx
              rw [← hfx]
              simp [process_results, hv, hc, hpl]
          have hjoin : ((c :: cs).filterMap fun cid =>
              (env.search_fn ct (some cid)).toOption.map
                (fun raw => (process_results env raw ct p).1)).flatten = [] := by
            rw [List.flatten_eq_nil_iff]
            exact hnil
          rw [hjoin]
          simp [store_results, list_for, hv, hc, hpl, Except.toOption,
            dedup_and_cap, dedup_cap_aux]
  refine ⟨hex, hmain, ?_⟩
  intro ct c cs hct hcat hfail
  rw [hmain ct c cs hct hcat]
  have hfm : ((c :: cs).filterMap fun cid =>
      (env.search_fn ct (some cid)).toOption.map
        (fun raw => (process_results env raw ct p).1)) = [] := by
    rw [List.filterMap_eq_nil_iff]
    intro cid hcid
    rw [hfail cid hcid]
    rfl
  rw [hfm]
  rfl

/-- C6 witness: categories 1 and 2 succeed, category 3 fails with a remote
error; the search still returns the results of categories 1 and 2, in
order, with no exception. -/
theorem C6_witness :
    ((search C6_env C6_params).1.toOption.map (fun r => list_for r "video") =
      some (dedup_and_cap 10 (((["1", "2", "3"]).filterMap fun cid =>
        (C6_env.search_fn "video" (some cid)).toOption.map
          (fun raw => (process_results C6_env raw "video" C6_params).1)).flatten))) ∧
    (search C6_env C6_params).1.toOption.map
        (fun r => (list_for r "video").map formatted_id) = some ["A", "B"] :=
  ⟨(C6_partial_failure_tolerance C6_env C6_params rfl).2.1 "video" "1" ["2", "3"]
      rfl rfl,
   rfl⟩

/-- C10.  Whenever a video is formatted with a detail record present, the
output carries a `made_for_kids` key whose value defaults to `false` when
the record's `status` block or `madeForKids` key is missing; such a video
is excluded by the kids filter value `yes`.  Only a video formatted with no
detail record at all lacks the key (and so passes the kids filter
unconditionally). -/
theorem C10_made_for_kids_default :
    (∀ item details info, format_video_info item (some details) = Except.ok info →
      info.made_for_kids = some (((details.status.getD emptyStatus).madeForKids).getD false)) ∧
    (∀ item details info, format_video_info item (some details) = Except.ok info →
      (details.status.getD emptyStatus).madeForKids = none →
      info.made_for_kids = some false ∧
      ∀ p : SearchParams, p.kids_filter = some "yes" → should_include_video info p = false) ∧
    (∀ item info, format_video_info item none = Except.ok info →
      info.made_for_kids = none) := by
  have key : ∀ item details info, format_video_info item (some details) = Except.ok info →
      info.made_for_kids = some (((details.status.getD emptyStatus).madeForKids).getD false) := by
    intro item details info hfmt
    by_cases hcat : ((item.snippet.getD emptySnippet).categoryId.getD "" != "") = true
    · simp [format_video_info, hcat] at hfmt
    · simp [format_video_info, hcat] at hfmt
      subst hfmt
      rfl
  refine ⟨key, ?_, ?_⟩
  · intro item details info hfmt hnone
    have hmk : info.made_for_kids = some false := by
      rw [key item details info hfmt, hnone]
      rfl
    refine ⟨hmk, ?_⟩
    intro p hp
    have hkids : kids_filter_pass info p.kids_filter = false := by
      rw [hp]
      simp [kids_filter_pass, hmk]
    simp [should_include_video, hkids]
  · intro item info hfmt
    by_cases hcat : ((item.snippet.getD emptySnippet).categoryId.getD "" != "") = true
    · simp [format_video_info, hcat] at hfmt
    · simp [format_video_info, hcat] at hfmt
      subst hfmt
      rfl

/-- C10 witness: a concrete detail record whose `status` block lacks the
`madeForKids` key; the formatted video carries `made_for_kids = false` and
is excluded by the kids filter `yes`. -/
theorem C10_witness :
    C10_info.made_for_kids = some false ∧
    should_include_video C10_info C10_params = false :=
  ⟨((C10_made_for_kids_default).2.1 C10_item C10_details C10_info rfl rfl).1,
   ((C10_made_for_kids_default).2.1 C10_item C10_details C10_info rfl rfl).2
     C10_params rfl⟩

/-- Helper: `takeWhile isDigit` on a digit run followed by a non-digit. -/
theorem takeWhile_digits (ds : List Char) (hds : ∀ c ∈ ds, c.isDigit = true)
    (b : Char) (hb : b.isDigit = false) (t : List Char) :
    (ds ++ b :: t).takeWhile Char.isDigit = ds := by
  induction ds with
  | nil => simp [List.takeWhile_cons, hb]
  | cons x xs ih =>
    have hx : x.isDigit = true := hds x (List.mem_cons_self x xs)
    have hxs : ∀ c ∈ xs, c.isDigit = true := fun c hc => hds c (List.mem_cons_of_mem x hc)
    simp [List.takeWhile_cons, hx, ih hxs]

/-- Helper: `dropWhile isDigit` on a digit run followed by a non-digit. -/
theorem dropWhile_digits (ds : List Char) (hds : ∀ c ∈ ds, c.isDigit = true)
    (b : Char) (hb : b.isDigit = false) (t : List Char) :
    (ds ++ b :: t).dropWhile Char.isDigit = b :: t := by
  induction ds with
  | nil => simp [List.dropWhile_cons, hb]
  | cons x xs ih =>
    have hx : x.isDigit = true := hds x (List.mem_cons_self x xs)
    have hxs : ∀ c ∈ xs, c.isDigit = true := fun c hc => hds c (List.mem_cons_of_mem x hc)
    simp [List.dropWhile_cons, hx, ih hxs]

/-- Helper: the leftmost-match scan walks past a digit run that is followed
by a different marker. -/
theorem scanNum_skip (c b : Char) (hb : b.isDigit = false) (hbc : (b == c) = false)
    (t : List Char) :
    ∀ ds, (∀ x ∈ ds, x.isDigit = true) → scanNum (ds ++ b :: t) c = scanNum t c := by
  intro ds
  induction ds with
  | nil => intro _; simp [scanNum, hb]
  | cons x xs ih =>
    intro hds
    have hx : x.isDigit = true := hds x (List.mem_cons_self x xs)
    have hxs : ∀ y ∈ xs, y.isDigit = true := fun y hy => hds y (List.mem_cons_of_mem x hy)
    have hdrop : (x :: (xs ++ b :: t)).dropWhile Char.isDigit = b :: t := by
      have := dropWhile_digits (x :: xs) hds b hb t
      simpa using this
    rw [List.cons_append, scanNum]
    rw [hdrop]
    simp [hx, hbc, ih hxs]

/-- Helper: the leftmost-match scan finds a leading digit run followed by
the marker. -/
theorem scanNum_found (c : Char) (hc : c.isDigit = false) (t : List Char)
    (ds : List Char) (hne : ds ≠ []) (hds : ∀ x ∈ ds, x.isDigit = true) :
    scanNum (ds ++ c :: t) c = some (digitsToNat ds) := by
  cases ds with
  | nil => exact absurd rfl hne
  | cons x xs =>
    have hx : x.isDigit = true := hds x (List.mem_cons_self x xs)
    have hdrop : (x :: (xs ++ c :: t)).dropWhile Char.isDigit = c :: t := by
      have := dropWhile_digits (x :: xs) hds c hc t
      simpa using this
    have htake : (x :: (xs ++ c :: t)).takeWhile Char.isDigit = x :: xs := by
      have := takeWhile_digits (x :: xs) hds c hc t
      simpa using this
    simp [scanNum, hx, hdrop, htake]

/-- Helper: `replace('PT', '')` leaves a string without `P` unchanged. -/
theorem replacePT_no_P : ∀ l : List Char, (∀ c ∈ l, (c == 'P') = false) →
    replacePT l = l := by
  intro l
  induction l with
  | nil => intro _; rfl
  | cons c tl ih =>
    intro h
    have hcP : (c == 'P') = false := h c (List.mem_cons_self c tl)
    cases tl with
    | nil => rfl
    | cons d tl2 =>
      have htl : ∀ x ∈ d :: tl2, (x == 'P') = false :=
        fun x hx => h x (List.mem_cons_of_mem c hx)
      have hrw := ih htl
      simp [replacePT, hcP, hrw]

/-- Helper: a decimal digit is not equal (as `==`) to a non-digit marker. -/
theorem digit_beq_marker {c m : Char} (h : c.isDigit = true) (hm : m.isDigit = false) :
    (c == m) = false := by
  cases hq : c == m with
  | false => rfl
  | true =>
    have hcm : c = m := eq_of_beq hq
    subst hcm
    rw [h] at hm
    exact Bool.noConfusion hm

/-- Helper: every character of a component part is a digit or the marker. -/
theorem mem_componentPart {x : Char} {comp : Option (List Char)} {m : Char}
    (hcomp : compOk comp) (hx : x ∈ componentPart comp m) :
    x.isDigit = true ∨ x = m := by
  cases comp with
  | none => simp [componentPart] at hx
  | some ds =>
    simp [componentPart] at hx
    cases hx with
    | inl h => exact Or.inl ((hcomp ds rfl).2 x h)
    | inr h => exact Or.inr h

/-- Helper: the hours component extracted from a well-formed duration body. -/
theorem scan_body_hours (hs ms ss : Option (List Char)) (h1 : compOk hs)
    (h2 : compOk ms) (h3 : compOk ss) :
    (if 'H' ∈ componentPart hs 'H' ++ (componentPart ms 'M' ++ componentPart ss 'S')
     then (scanNum (componentPart hs 'H' ++ (componentPart ms 'M' ++ componentPart ss 'S')) 'H').getD 0
     else 0) = componentVal hs := by
  cases hs with
  | none =>
    have hnot : 'H' ∉ componentPart (none : Option (List Char)) 'H' ++
        (componentPart ms 'M' ++ componentPart ss 'S') := by
      intro hmem
      simp only [componentPart, List.nil_append] at hmem
      rcases List.mem_append.mp hmem with hm | hm
      · rcases mem_componentPart h2 hm with hd | he
        · exact absurd hd (by decide)
        · exact absurd he (by decide)
      · rcases mem_componentPart h3 hm with hd | he
        · exact absurd hd (by decide)
        · exact absurd he (by decide)
    rw [if_neg hnot]
    rfl
  | some l =>
    obtain ⟨hne, hdig⟩ := h1 l rfl
    have hshape : componentPart (some l) 'H' ++ (componentPart ms 'M' ++ componentPart ss 'S') =
        l ++ 'H' :: (componentPart ms 'M' ++ componentPart ss 'S') := by
      simp [componentPart, List.append_assoc]
    rw [hshape]
    have hmem : 'H' ∈ l ++ 'H' :: (componentPart ms 'M' ++ componentPart ss 'S') := by simp
    rw [if_pos hmem]
    rw [scanNum_found 'H' (by decide) _ l hne hdig]
    rfl

/-- Helper: the minutes component extracted from a well-formed duration body. -/
theorem scan_body_minutes (hs ms ss : Option (List Char)) (h1 : compOk hs)
    (h2 : compOk ms) (h3 : compOk ss) :
    (if 'M' ∈ componentPart hs 'H' ++ (componentPart ms 'M' ++ componentPart ss 'S')
     then (scanNum (componentPart hs 'H' ++ (componentPart ms 'M' ++ componentPart ss 'S')) 'M').getD 0
     else 0) = componentVal ms := by
  cases ms with
  | none =>
    have hnot : 'M' ∉ componentPart hs 'H' ++
        (componentPart (none : Option (List Char)) 'M' ++ componentPart ss 'S') := by
      intro hmem
      simp only [componentPart, List.nil_append] at hmem
      rcases List.mem_append.mp hmem with hm | hm
      · rcases mem_componentPart h1 hm with hd | he
        · exact absurd hd (by decide)
        · exact absurd he (by decide)
      · rcases mem_componentPart h3 hm with hd | he
        · exact absurd hd (by decide)
        · exact absurd he (by decide)
    rw [if_neg hnot]
    rfl
  | some lm =>
    obtain ⟨hnem, hdigm⟩ := h2 lm rfl
    have hmem : 'M' ∈ componentPart hs 'H' ++
        (componentPart (some lm) 'M' ++ componentPart ss 'S') := by
      simp [componentPart]
    rw [if_pos hmem]
    cases hs with
    | none =>
      have hshape : componentPart (none : Option (List Char)) 'H' ++
          (componentPart (some lm) 'M' ++ componentPart ss 'S') =
          lm ++ 'M' :: componentPart ss 'S' := by
        simp [componentPart, List.append_assoc]
      rw [hshape, scanNum_found 'M' (by decide) _ lm hnem hdigm]
      rfl
    | some lh =>
      obtain ⟨hneh, hdigh⟩ := h1 lh rfl
      have hshape : componentPart (some lh) 'H' ++
          (componentPart (some lm) 'M' ++ componentPart ss 'S') =
          lh ++ 'H' :: (lm ++ 'M' :: componentPart ss 'S') := by
        simp [componentPart, List.append_assoc]
      rw [hshape, scanNum_skip 'M' 'H' (by decide) (by decide) _ lh hdigh,
        scanNum_found 'M' (by decide) _ lm hnem hdigm]
      rfl

/-- Helper: the seconds component extracted from a well-formed duration body. -/
theorem scan_body_seconds (hs ms ss : Option (List Char)) (h1 : compOk hs)
    (h2 : compOk ms) (h3 : compOk ss) :
    (if 'S' ∈ componentPart hs 'H' ++ (componentPart ms 'M' ++ componentPart ss 'S')
     then (scanNum (componentPart hs 'H' ++ (componentPart ms 'M' ++ componentPart ss 'S')) 'S').getD 0
     else 0) = componentVal ss := by
  cases ss with
  | none =>
    have hnot : 'S' ∉ componentPart hs 'H' ++
        (componentPart ms 'M' ++ componentPart (none : Option (List Char)) 'S') := by
      intro hmem
      simp only [componentPart, List.append_nil] at hmem
      rcases List.mem_append.mp hmem with hm | hm
      · rcases mem_componentPart h1 hm with hd | he
        · exact absurd hd (by decide)
        · exact absurd he (by decide)
      · rcases mem_componentPart h2 hm with hd | he
        · exact absurd hd (by decide)
        · exact absurd he (by decide)
    rw [if_neg hnot]
    rfl
  | some ls =>
    obtain ⟨hnes, hdigs⟩ := h3 ls rfl
    have hmem : 'S' ∈ componentPart hs 'H' ++
        (componentPart ms 'M' ++ componentPart (some ls) 'S') := by
      simp [componentPart]
    rw [if_pos hmem]
    cases hs with
    | none =>
      cases ms with
      | none =>
        have hshape : componentPart (none : Option (List Char)) 'H' ++
            (componentPart (none : Option (List Char)) 'M' ++ componentPart (some ls) 'S') =
            ls ++ 'S' :: [] := by
          simp [componentPart]
        rw [hshape, scanNum_found 'S' (by decide) _ ls hnes hdigs]
        rfl
      | some lm =>
        obtain ⟨hnem, hdigm⟩ := h2 lm rfl
        have hshape : componentPart (none : Option (List Char)) 'H' ++
            (componentPart (some lm) 'M' ++ componentPart (some ls) 'S') =
            lm ++ 'M' :: (ls ++ 'S' :: []) := by
          simp [componentPart, List.append_assoc]
        rw [hshape, scanNum_skip 'S' 'M' (by decide) (by decide) _ lm hdigm,
          scanNum_found 'S' (by decide) _ ls hnes hdigs]
        rfl
    | some lh =>
      obtain ⟨hneh, hdigh⟩ := h1 lh rfl
      cases ms with
      | none =>
        have hshape : componentPart (some lh) 'H' ++
            (componentPart (none : Option (List Char)) 'M' ++ componentPart (some ls) 'S') =
            lh ++ 'H' :: (ls ++ 'S' :: []) := by
          simp [componentPart, List.append_assoc]
        rw [hshape, scanNum_skip 'S' 'H' (by decide) (by decide) _ lh hdigh,
          scanNum_found 'S' (by decide) _ ls hnes hdigs]
        rfl
      | some lm =>
        obtain ⟨hnem, hdigm⟩ := h2 lm rfl
        have hshape : componentPart (some lh) 'H' ++
            (componentPart (some lm) 'M' ++ componentPart (some ls) 'S') =
            lh ++ 'H' :: (lm ++ 'M' :: (ls ++ 'S' :: [])) := by
          simp [componentPart, List.append_assoc]
        rw [hshape, scanNum_skip 'S' 'H' (by decide) (by decide) _ lh hdigh,
          scanNum_skip 'S' 'M' (by decide) (by decide) _ lm hdigm,
          scanNum_found 'S' (by decide) _ ls hnes hdigs]
        rfl

/-- C9.  Duration parsing: the empty token yields `Unknown`; `PT1H2M3S`
yields `01:02:03` and `PT4M13S` yields `04:13`; and in general every token
of the form `PT#H#M#S` with any subset of the `H`/`M`/`S` components
present renders as `MM:SS` when the hours value is zero and `HH:MM:SS`
otherwise, each component zero-padded to two digits. -/
theorem C9_duration_parsing :
    parse_duration "" = "Unknown" ∧
    parse_duration "PT1H2M3S" = "01:02:03" ∧
    parse_duration "PT4M13S" = "04:13" ∧
    ∀ hs ms ss : Option (List Char), compOk hs → compOk ms → compOk ss →
      parse_duration (String.mk (durationToken hs ms ss)) =
        renderDuration (componentVal hs) (componentVal ms) (componentVal ss) := by
  refine ⟨rfl, rfl, rfl, ?_⟩
  intro hs ms ss h1 h2 h3
  have hnoP : ∀ x ∈ componentPart hs 'H' ++ (componentPart ms 'M' ++ componentPart ss 'S'),
      (x == 'P') = false := by
    intro x hx
    rcases List.mem_append.mp hx with hm | hm
    · rcases mem_componentPart h1 hm with hd | rfl
      · exact digit_beq_marker hd (by decide)
      · decide
    · rcases List.mem_append.mp hm with hm2 | hm2
      · rcases mem_componentPart h2 hm2 with hd | rfl
        · exact digit_beq_marker hd (by decide)
        · decide
      · rcases mem_componentPart h3 hm2 with hd | rfl
        · exact digit_beq_marker hd (by decide)
        · decide
  have hrepl : replacePT (durationToken hs ms ss) =
      componentPart hs 'H' ++ (componentPart ms 'M' ++ componentPart ss 'S') := by
    show replacePT ('P' :: 'T' ::
      (componentPart hs 'H' ++ (componentPart ms 'M' ++ componentPart ss 'S'))) = _
    rw [replacePT]
    simp [replacePT_no_P _ hnoP]
  have hemp : (durationToken hs ms ss).isEmpty = false := rfl
  show parse_duration_chars (durationToken hs ms ss) = _
  rw [parse_duration_chars]
  rw [hemp]
  simp only [Bool.false_eq_true, if_false]
  rw [hrepl]
  rw [scan_body_hours hs ms ss h1 h2 h3, scan_body_minutes hs ms ss h1 h2 h3,
    scan_body_seconds hs ms ss h1 h2 h3]
  rfl

/-- C9 witness: the general statement instantiated at the token
`PT1H2M3S`. -/
theorem C9_witness :
    parse_duration (String.mk (durationToken (some ['1']) (some ['2']) (some ['3']))) =
      renderDuration 1 2 3 :=
  (C9_duration_parsing).2.2.2 (some ['1']) (some ['2']) (some ['3'])
    (fun l hl => by cases hl; exact ⟨by simp, by decide⟩)
    (fun l hl => by cases hl; exact ⟨by simp, by decide⟩)
    (fun l hl => by cases hl; exact ⟨by simp, by decide⟩)
